import Mathlib

/-
  Verification development for the distributed-printing system
  (Ricart-Agrawala mutual exclusion over gRPC).

  Shallow embedding of the Python sources:
    src/common/lamport_clock.py   (LamportClock)
    src/client/main.py            (ClientNode, MutualExclusionServiceServicer)
    src/printer/server.py         (PrintingServiceServicer, main)
  Python integers are modelled as Int; Python float CLI arguments and
  delays as Rat; Python dicts as insertion-ordered association lists;
  Python sets as duplicate-free lists.  Stateful methods become pure
  functions from the receiver state to (new state, result, outputs).
-/

/- ===== src/common/lamport_clock.py ===== -/

/-- Embeds LamportClock.tick: increment the internal time field by 1,
return the new value.  The clock state is the value of the private
time field; every operation returns (new state, returned value). -/
def LamportClock.tick (t : Int) : Int × Int :=
  (t + 1, t + 1)

/-- Embeds LamportClock.send_event: identical to tick. -/
def LamportClock.send_event (t : Int) : Int × Int :=
  LamportClock.tick t

/-- Embeds LamportClock.receive_event: set the time to
max(local, received) + 1 and return the new value. -/
def LamportClock.receive_event (t : Int) (received_timestamp : Int) : Int × Int :=
  (max t received_timestamp + 1, max t received_timestamp + 1)

/-- Embeds LamportClock.get_time: return the current time without
incrementing. -/
def LamportClock.get_time (t : Int) : Int × Int :=
  (t, t)

/-- Embeds LamportClock.update: overwrite the time with new_time and
return it (the previous time is discarded). -/
def LamportClock.update (_t : Int) (new_time : Int) : Int × Int :=
  (new_time, new_time)

/-- One operation of the public interface of LamportClock. -/
inductive ClockOp where
  | tick : ClockOp
  | send_event : ClockOp
  | receive_event : Int → ClockOp
  | get_time : ClockOp
  | update : Int → ClockOp
deriving Repr, DecidableEq

/-- Run one clock operation on a clock state, giving
(new state, returned timestamp). -/
def runClockOp (s : Int) : ClockOp → Int × Int
  | ClockOp.tick => LamportClock.tick s
  | ClockOp.send_event => LamportClock.send_event s
  | ClockOp.receive_event r => LamportClock.receive_event s r
  | ClockOp.get_time => LamportClock.get_time s
  | ClockOp.update n => LamportClock.update s n

/-- Run a sequence of clock operations, collecting the returned
timestamps in order. -/
def runClockOps (s : Int) : List ClockOp → List Int
  | [] => []
  | op :: rest => (runClockOp s op).2 :: runClockOps (runClockOp s op).1 rest

/-- The operations that advance the clock (tick, send_event,
receive_event); get_time observes without advancing and update
overwrites arbitrarily. -/
def ClockOp.advancing : ClockOp → Bool
  | ClockOp.get_time => false
  | ClockOp.update _ => false
  | _ => true

/- ===== src/common/message_builder.py (message shapes) ===== -/

/-- AccessRequest message (printing.proto): a request for the critical
section carrying the sender identifier, its Lamport timestamp and its
request sequence number. -/
structure AccessRequest where
  client_id : Int
  lamport_timestamp : Int
  request_number : Int
deriving Repr, DecidableEq

/-- AccessResponse message: the synchronous reply to AccessRequest. -/
structure AccessResponse where
  access_granted : Bool
  lamport_timestamp : Int
deriving Repr, DecidableEq

/-- AccessRelease message: informational notice of a release. -/
structure AccessRelease where
  client_id : Int
  lamport_timestamp : Int
  request_number : Int
deriving Repr, DecidableEq

/-- PrintRequest message: a job sent to the printer. -/
structure PrintRequest where
  client_id : Int
  message_content : String
  lamport_timestamp : Int
  request_number : Int
deriving Repr, DecidableEq

/-- PrintResponse message: the printer confirmation. -/
structure PrintResponse where
  success : Bool
  confirmation_message : String
  lamport_timestamp : Int
deriving Repr, DecidableEq

/-- Embeds MessageBuilder.build_access_request. -/
def MessageBuilder.build_access_request (client_id lamport_timestamp request_number : Int) :
    AccessRequest :=
  { client_id := client_id, lamport_timestamp := lamport_timestamp,
    request_number := request_number }

/-- Embeds MessageBuilder.build_access_response. -/
def MessageBuilder.build_access_response (access_granted : Bool) (lamport_timestamp : Int) :
    AccessResponse :=
  { access_granted := access_granted, lamport_timestamp := lamport_timestamp }

/-- Embeds MessageBuilder.build_access_release. -/
def MessageBuilder.build_access_release (client_id lamport_timestamp request_number : Int) :
    AccessRelease :=
  { client_id := client_id, lamport_timestamp := lamport_timestamp,
    request_number := request_number }

/-- Embeds MessageBuilder.build_print_response. -/
def MessageBuilder.build_print_response (success : Bool) (confirmation_message : String)
    (lamport_timestamp : Int) : PrintResponse :=
  { success := success, confirmation_message := confirmation_message,
    lamport_timestamp := lamport_timestamp }

/- ===== src/client/main.py ===== -/

/-- Embeds the PendingRequest dataclass: the record a peer keeps for
its own outstanding critical-section request. -/
structure PendingRequest where
  client_id : Int
  lamport_timestamp : Int
  request_number : Int
deriving Repr, DecidableEq

/-- Embeds the mutable state of a ClientNode (fields set in
ClientNode.__init__).  The Lamport clock is its integer time field;
deferred_replies is the insertion-ordered dict keyed by client id;
received_replies and outstanding_replies are sets of peer addresses,
modelled as duplicate-free lists. -/
structure ClientNode where
  client_id : Int
  port : Int
  printer_server : String
  peer_addresses : List String
  job_interval_min : Rat
  job_interval_max : Rat
  job_counter : Int
  clock : Int
  request_number : Int
  request_queue : List PendingRequest
  has_access : Bool
  waiting_for_access : Bool
  deferred_replies : List (Int × AccessRequest)
  received_replies : List String
  outstanding_replies : List String
deriving Repr, DecidableEq

/-- Embeds ClientNode.__init__: a freshly constructed node. -/
def ClientNode.init (client_id port : Int) (printer_server : String)
    (peer_addresses : List String) (job_interval_min job_interval_max : Rat) :
    ClientNode :=
  { client_id := client_id, port := port, printer_server := printer_server,
    peer_addresses := peer_addresses,
    job_interval_min := job_interval_min, job_interval_max := job_interval_max,
    job_counter := 0, clock := 0, request_number := 0, request_queue := [],
    has_access := false, waiting_for_access := false,
    deferred_replies := [], received_replies := [], outstanding_replies := [] }

/-- The sort key used on the request queue: Python sorted with
key (lamport_timestamp, client_id), so an element precedes another
when its key tuple is lexicographically smaller or equal. -/
def pendingLE (a b : PendingRequest) : Bool :=
  decide (a.lamport_timestamp < b.lamport_timestamp) ||
    (decide (a.lamport_timestamp = b.lamport_timestamp) &&
      decide (a.client_id ≤ b.client_id))

/-- Stable insertion of an element into a list sorted by pendingLE. -/
def insertPending (a : PendingRequest) : List PendingRequest → List PendingRequest
  | [] => [a]
  | b :: rest => if pendingLE a b then a :: b :: rest else b :: insertPending a rest

/-- Stable sort by (lamport_timestamp, client_id), modelling Python
sorted with that key. -/
def sortPending : List PendingRequest → List PendingRequest
  | [] => []
  | a :: rest => insertPending a (sortPending rest)

/-- Embeds ClientNode._evaluate_access_request: decide whether an
incoming request is deferred (true) or granted (false), with the log
message.  The source also reassigns the sorted request queue inside the
waiting branch, so the (possibly re-sorted) queue is returned as the
third component. -/
def ClientNode.evaluate_access_request (node : ClientNode) (request : AccessRequest) :
    Bool × String × List PendingRequest :=
  if node.has_access then
    (true,
      "AccessRequest de cliente " ++ toString request.client_id ++
        " DEFERIDO (em CS, TS: " ++ toString request.lamport_timestamp ++ ")",
      node.request_queue)
  else
    match node.waiting_for_access, sortPending node.request_queue with
    | true, our_request :: rest =>
      if request.lamport_timestamp < our_request.lamport_timestamp then
        (false,
          "AccessRequest de cliente " ++ toString request.client_id ++
            " CONCEDIDO (TS " ++ toString request.lamport_timestamp ++
            " < nosso TS " ++ toString our_request.lamport_timestamp ++ ")",
          our_request :: rest)
      else if request.lamport_timestamp > our_request.lamport_timestamp then
        (true,
          "AccessRequest de cliente " ++ toString request.client_id ++
            " DEFERIDO (TS " ++ toString request.lamport_timestamp ++
            " > nosso TS " ++ toString our_request.lamport_timestamp ++ ")",
          our_request :: rest)
      else if request.client_id < node.client_id then
        (false,
          "AccessRequest de cliente " ++ toString request.client_id ++
            " CONCEDIDO (TS igual, ID " ++ toString request.client_id ++
            " < nosso ID " ++ toString node.client_id ++ ")",
          our_request :: rest)
      else
        (true,
          "AccessRequest de cliente " ++ toString request.client_id ++
            " DEFERIDO (TS igual, ID " ++ toString request.client_id ++
            " >= nosso ID " ++ toString node.client_id ++ ")",
          our_request :: rest)
    | _, _ =>
      (false,
        "AccessRequest de cliente " ++ toString request.client_id ++
          " CONCEDIDO (não em CS)",
        node.request_queue)

/-- Embeds MutualExclusionServiceServicer.RequestAccess: merge the
clock with the incoming timestamp, evaluate grant-or-defer under the
lock, record a deferred request in deferred_replies only when no entry
for that client id exists, and answer with access_granted false when
deferring and true when granting, carrying a fresh tick timestamp. -/
def MutualExclusionServiceServicer.RequestAccess (node : ClientNode)
    (request : AccessRequest) : ClientNode × AccessResponse :=
  let merged := LamportClock.receive_event node.clock request.lamport_timestamp
  let node1 := { node with clock := merged.1 }
  let eval := node1.evaluate_access_request request
  let should_defer := eval.1
  let node2 := { node1 with request_queue := eval.2.2 }
  if should_defer then
    let node3 :=
      if (node2.deferred_replies.lookup request.client_id).isNone then
        { node2 with deferred_replies :=
            node2.deferred_replies ++ [(request.client_id, request)] }
      else node2
    let ticked := LamportClock.tick node3.clock
    ({ node3 with clock := ticked.1 },
      MessageBuilder.build_access_response false ticked.2)
  else
    let ticked := LamportClock.tick node2.clock
    ({ node2 with clock := ticked.1 },
      MessageBuilder.build_access_response true ticked.2)

/-- Embeds MutualExclusionServiceServicer.ReleaseAccess: merge the
clock with the release timestamp and acknowledge; no other state is
touched. -/
def MutualExclusionServiceServicer.ReleaseAccess (node : ClientNode)
    (release : AccessRelease) : ClientNode :=
  let merged := LamportClock.receive_event node.clock release.lamport_timestamp
  { node with clock := merged.1 }

/-- Embeds the locked initiation section of
ClientNode.request_print_access: increment the request counter, obtain
the timestamp from send_event, append the PendingRequest, raise
waiting_for_access, clear received_replies and set outstanding_replies
to the peer-address set.  Returns the updated node and the pending
record that is then broadcast. -/
def ClientNode.request_print_access_init (node : ClientNode) :
    ClientNode × PendingRequest :=
  let request_number := node.request_number + 1
  let sent := LamportClock.send_event node.clock
  let pending : PendingRequest :=
    { client_id := node.client_id, lamport_timestamp := sent.2,
      request_number := request_number }
  ({ node with
      request_number := request_number,
      clock := sent.1,
      request_queue := node.request_queue ++ [pending],
      waiting_for_access := true,
      received_replies := [],
      outstanding_replies := node.peer_addresses }, pending)

/-- Embeds the reply bookkeeping of
ClientNode._send_access_request_to_peer when the RPC returns a
response: merge the clock with the response timestamp, then record the
peer address in received_replies and discard it from
outstanding_replies, regardless of the access_granted value. -/
def ClientNode.handle_peer_response (node : ClientNode) (peer_addr : String)
    (response : AccessResponse) : ClientNode :=
  let merged := LamportClock.receive_event node.clock response.lamport_timestamp
  { node with
    clock := merged.1,
    outstanding_replies := node.outstanding_replies.erase peer_addr,
    received_replies :=
      if peer_addr ∈ node.received_replies then node.received_replies
      else node.received_replies ++ [peer_addr] }

/-- Embeds the error branch of
ClientNode._send_access_request_to_peer: on grpc.RpcError the peer is
still recorded in received_replies and discarded from
outstanding_replies, with no clock merge. -/
def ClientNode.handle_peer_rpc_error (node : ClientNode) (peer_addr : String) :
    ClientNode :=
  { node with
    outstanding_replies := node.outstanding_replies.erase peer_addr,
    received_replies :=
      if peer_addr ∈ node.received_replies then node.received_replies
      else node.received_replies ++ [peer_addr] }

/-- Embeds the tail of ClientNode.request_print_access: the wait loop
runs while received_replies has fewer elements than peer_addresses;
once the condition fails the node takes access (has_access true,
waiting_for_access false).  Modelled as a partial step: none when the
loop condition still holds so the caller would block waiting for
further reply events, some of the updated node when it exits at once. -/
def ClientNode.enter_critical_section (node : ClientNode) : Option ClientNode :=
  if node.received_replies.length < node.peer_addresses.length then none
  else some { node with has_access := true, waiting_for_access := false }

/-- Embeds ClientNode.request_print_access as executed with no
incoming reply events interleaved (in particular the only possible
execution when the peer set is empty): the initiation section followed
by the wait loop, which completes immediately exactly when its
condition is false from the start. -/
def ClientNode.request_print_access_solo (node : ClientNode) : Option ClientNode :=
  (node.request_print_access_init).1.enter_critical_section

/-- Embeds ClientNode.release_access.  Returns the updated node, the
list of peer addresses to which an AccessRelease is dispatched, and the
list of client ids to which a deferred AccessResponse grant is sent.
The source snapshots deferred_replies into a local list and clears the
table, but the loop that sends the deferred grants iterates over the
table itself, after the clearing. -/
def ClientNode.release_access (node : ClientNode) :
    ClientNode × List String × List Int :=
  if !node.has_access then
    (node, [], [])
  else
    let sent := LamportClock.send_event node.clock
    let _deferred_requests := node.deferred_replies.map Prod.snd
    let node1 := { node with clock := sent.1, deferred_replies := [] }
    let _release_msg :=
      MessageBuilder.build_access_release node.client_id sent.2 node.request_number
    let node2 := { node1 with has_access := false }
    let node3 := { node2 with request_queue :=
      if node2.request_queue.length > 0 then node2.request_queue.tail
      else node2.request_queue }
    let releases_sent := node3.peer_addresses
    let deferred_grants_sent := node3.deferred_replies.map Prod.fst
    let node4 := { node3 with outstanding_replies := [] }
    (node4, releases_sent, deferred_grants_sent)

/-- The abstract peer state of the specification: IDLE, WAITING or
HELD.  On a ClientNode, HELD is has_access, WAITING is
waiting_for_access without access, IDLE is neither. -/
inductive PeerState where
  | IDLE : PeerState
  | WAITING : PeerState
  | HELD : PeerState
deriving Repr, DecidableEq

/-- The peer state a ClientNode occupies. -/
def ClientNode.peerState (node : ClientNode) : PeerState :=
  if node.has_access then PeerState.HELD
  else if node.waiting_for_access then PeerState.WAITING
  else PeerState.IDLE

/-- Modelled from the spec: the grant-or-defer rule table of section
4.3, for an incoming request r at a peer with identifier own_id in
state s holding pending timestamp T_own when WAITING.  The result is
true when the request is deferred: defer in HELD, grant in IDLE, and
in WAITING grant exactly when (r.ts, r.peer_id) precedes
(T_own, own_id) in the strict lexicographic order. -/
def spec_decision (s : PeerState) (own_id : Int) (T_own : Int)
    (r : AccessRequest) : Bool :=
  match s with
  | PeerState.HELD => true
  | PeerState.IDLE => false
  | PeerState.WAITING =>
    !(decide (r.lamport_timestamp < T_own) ||
      (decide (r.lamport_timestamp = T_own) && decide (r.client_id < own_id)))

/- ===== src/printer/server.py ===== -/

/-- Embeds the state of PrintingServiceServicer: the configured delay
bounds and the Lamport clock of the server. -/
structure PrintingServiceServicer where
  print_delay_min : Rat
  print_delay_max : Rat
  clock : Int
deriving Repr, DecidableEq

/-- Embeds PrintingServiceServicer.SendToPrinter.  The duration drawn
by random.uniform(print_delay_min, print_delay_max) is passed as the
delay argument; the caller of the theorem supplies the contract that
it lies within the configured bounds.  Returns the new servicer state,
the stdout line printed for the job, the slept duration and the
PrintResponse. -/
def PrintingServiceServicer.SendToPrinter (s : PrintingServiceServicer)
    (request : PrintRequest) (delay : Rat) :
    PrintingServiceServicer × List String × Rat × PrintResponse :=
  let merged := LamportClock.receive_event s.clock request.lamport_timestamp
  let s1 := { s with clock := merged.1 }
  let printed :=
    ["[TS: " ++ toString request.lamport_timestamp ++ "] CLIENTE " ++
      toString request.client_id ++ ": " ++ request.message_content]
  let slept := delay
  let ticked := LamportClock.tick s1.clock
  let s2 := { s1 with clock := ticked.1 }
  let response := MessageBuilder.build_print_response true
    ("Documento do cliente " ++ toString request.client_id ++
      " impresso com sucesso")
    ticked.2
  (s2, printed, slept, response)

/- ===== CLI entry points ===== -/

/-- Outcome of running a main entry point to completion: the process
exit status and whether the gRPC port was opened before exiting. -/
structure MainResult where
  exit_code : Nat
  opened_port : Bool
deriving Repr, DecidableEq

/-- Embeds main of src/client/main.py after argument parsing: the two
validation checks print an error and return from main, which ends the
process normally (exit status 0) without opening a port; otherwise the
node starts (port opened) and a clean shutdown also exits 0. -/
def client_main (job_interval_min job_interval_max : Rat) : MainResult :=
  if job_interval_min < 0 ∨ job_interval_max < 0 then
    { exit_code := 0, opened_port := false }
  else if job_interval_min > job_interval_max then
    { exit_code := 0, opened_port := false }
  else
    { exit_code := 0, opened_port := true }

/-- Embeds main of src/printer/server.py after argument parsing, with
the same validation-and-return structure over the delay bounds. -/
def printer_main (delay_min delay_max : Rat) : MainResult :=
  if delay_min < 0 ∨ delay_max < 0 then
    { exit_code := 0, opened_port := false }
  else if delay_min > delay_max then
    { exit_code := 0, opened_port := false }
  else
    { exit_code := 0, opened_port := true }

/- ===== helper lemmas ===== -/

/-- The grant-or-defer evaluation never reads the clock field. -/
theorem evaluate_access_request_clock_irrelevant (node : ClientNode) (c : Int)
    (r : AccessRequest) :
    ClientNode.evaluate_access_request { node with clock := c } r
      = node.evaluate_access_request r := rfl

/-- Appending a fresh key to an association list that does not contain
it makes lookup of that key find the appended value. -/
theorem lookup_append_of_none {β : Type} (l : List (Int × β)) (k : Int) (v : β)
    (h : l.lookup k = none) : (l ++ [(k, v)]).lookup k = some v := by
  induction l with
  | nil => simp [List.lookup]
  | cons a rest ih =>
    obtain ⟨a1, a2⟩ := a
    rw [List.cons_append]
    by_cases hk : (k == a1)
    · simp [List.lookup, hk] at h
    · have hk2 : (k == a1) = false := by simpa using hk
      simp only [List.lookup, hk2] at h ⊢
      exact ih h

/- ===== claims ===== -/

/-- C4: for every clock value L and received timestamp t_in with
0 ≤ t_in, receive_event sets the clock to max(L, t_in) + 1 and returns
that value, which strictly exceeds both the prior clock value and
t_in; the next local event (tick) then returns max(L, t_in) + 2. -/
theorem c4_receive_event_merges (L t_in : Int) (_h : 0 ≤ t_in) :
    LamportClock.receive_event L t_in = (max L t_in + 1, max L t_in + 1)
    ∧ L < (LamportClock.receive_event L t_in).2
    ∧ t_in < (LamportClock.receive_event L t_in).2
    ∧ (LamportClock.tick (LamportClock.receive_event L t_in).1).2
        = max L t_in + 2 := by
  refine ⟨rfl, ?_, ?_, ?_⟩
  · exact lt_of_le_of_lt (le_max_left L t_in) (lt_add_one _)
  · exact lt_of_le_of_lt (le_max_right L t_in) (lt_add_one _)
  · show max L t_in + 1 + 1 = max L t_in + 2
    rw [add_assoc]
    norm_num

theorem c4_receive_event_merges_witness :
    0 ≤ (20 : Int)
    ∧ (LamportClock.receive_event 3 20 = (max 3 20 + 1, max 3 20 + 1)
      ∧ (3 : Int) < (LamportClock.receive_event 3 20).2
      ∧ (20 : Int) < (LamportClock.receive_event 3 20).2
      ∧ (LamportClock.tick (LamportClock.receive_event 3 20).1).2
          = max 3 20 + 2) :=
  ⟨by decide, c4_receive_event_merges 3 20 (by decide)⟩

/-- C10: for a node whose peer-address list is empty, the wait-loop
condition of request_print_access is false from the start, the call
completes with no reply ever received, and the node ends with
has_access true and waiting_for_access false. -/
theorem c10_solitary_peer_enters_immediately (node : ClientNode)
    (h : node.peer_addresses = []) :
    ¬((node.request_print_access_init).1.received_replies.length <
        (node.request_print_access_init).1.peer_addresses.length)
    ∧ ∃ n, node.request_print_access_solo = some n
        ∧ n.has_access = true ∧ n.waiting_for_access = false := by
  constructor
  · simp [ClientNode.request_print_access_init, h]
  · refine ⟨{ (node.request_print_access_init).1 with
        has_access := true, waiting_for_access := false }, ?_, rfl, rfl⟩
    simp [ClientNode.request_print_access_solo, ClientNode.enter_critical_section,
      ClientNode.request_print_access_init, h]

theorem c10_solitary_peer_enters_immediately_witness :
    (ClientNode.init 1 50052 "localhost:50051" [] 5 10).peer_addresses = []
    ∧ (¬(((ClientNode.init 1 50052 "localhost:50051" [] 5 10).request_print_access_init).1.received_replies.length <
          ((ClientNode.init 1 50052 "localhost:50051" [] 5 10).request_print_access_init).1.peer_addresses.length)
      ∧ ∃ n, (ClientNode.init 1 50052 "localhost:50051" [] 5 10).request_print_access_solo = some n
          ∧ n.has_access = true ∧ n.waiting_for_access = false) :=
  ⟨rfl, c10_solitary_peer_enters_immediately (ClientNode.init 1 50052 "localhost:50051" [] 5 10) rfl⟩

/-- C3: release_access sends no deferred grant at all — the loop that
would send them iterates over the deferred-reply table after the table
has been cleared — so for every node the list of deferred grants
dispatched during release is empty; a node that held access leaves the
table empty, and a node that did not hold access returns unchanged. -/
theorem c3_release_sends_no_deferred_grants (node : ClientNode) :
    (node.release_access).2.2 = []
    ∧ ((node.release_access).1.deferred_replies = []
        ∨ (node.release_access).1 = node) := by
  by_cases h : node.has_access
  · constructor
    · simp [ClientNode.release_access, h]
    · left
      simp [ClientNode.release_access, h]
  · constructor
    · simp [ClientNode.release_access, h]
    · right
      simp [ClientNode.release_access, h]

/-- C3 evaluation at the failing input: a node holding access with one
deferred request from peer 2 releases, and zero deferred grants are
dispatched even though the table had the entry. -/
theorem c3_release_failing_input_evaluation :
    (let H := { ClientNode.init 1 50062 "localhost:50051" ["localhost:50063"] 5 10 with
        has_access := true,
        deferred_replies :=
          [(2, { client_id := 2, lamport_timestamp := 5, request_number := 1 })] }
     H.deferred_replies.length = 1
     ∧ (H.release_access).2.2 = []
     ∧ (H.release_access).1.deferred_replies = []
     ∧ (H.release_access).1.has_access = false) := by decide

/-- C7 (amended): initiation of a critical-section request performs no
state-precondition check: from every node state (IDLE, WAITING or
HELD alike) it increments the request counter, obtains its timestamp
from send_event, appends the pending record to the queue, raises
waiting_for_access, clears received and sets outstanding to the full
peer set, leaving has_access untouched; from IDLE this realises the
IDLE to WAITING transition. -/
theorem c7_initiation_is_unconditional (node : ClientNode) :
    (node.request_print_access_init).2
      = { client_id := node.client_id, lamport_timestamp := node.clock + 1,
          request_number := node.request_number + 1 }
    ∧ (node.request_print_access_init).1.request_number = node.request_number + 1
    ∧ (node.request_print_access_init).1.clock = node.clock + 1
    ∧ (node.request_print_access_init).1.request_queue
        = node.request_queue ++ [(node.request_print_access_init).2]
    ∧ (node.request_print_access_init).1.waiting_for_access = true
    ∧ (node.request_print_access_init).1.received_replies = []
    ∧ (node.request_print_access_init).1.outstanding_replies = node.peer_addresses
    ∧ (node.request_print_access_init).1.has_access = node.has_access :=
  ⟨rfl, rfl, rfl, rfl, rfl, rfl, rfl, rfl⟩

/-- C7 counterexample: a node that is already WAITING issues another
request; the call is not rejected and the state does change — the
request counter increments and a second pending record is queued —
contradicting the claimed require-IDLE precondition with warning, no
state change and return. -/
theorem c7_request_while_waiting_changes_state :
    (let W := { ClientNode.init 1 50052 "localhost:50051" ["localhost:50053"] 5 10 with
        waiting_for_access := true,
        request_number := 1,
        clock := 1,
        request_queue := [{ client_id := 1, lamport_timestamp := 1, request_number := 1 }] }
     W.peerState = PeerState.WAITING
     ∧ (W.request_print_access_init).1.request_number = 2
     ∧ (W.request_print_access_init).1.request_queue.length = 2
     ∧ (W.request_print_access_init).1 ≠ W) := by decide

/-- C9 (amended): when the explicit argument-validation checks fail
(negative interval or delay, or minimum above maximum) both CLIs exit
before opening any port, but with exit code 0 — the validation
branches print an error and return from main, ending the process
normally. -/
theorem c9_validation_exits_before_port_with_code_zero (a b : Rat)
    (h : a < 0 ∨ b < 0 ∨ a > b) :
    client_main a b = { exit_code := 0, opened_port := false }
    ∧ printer_main a b = { exit_code := 0, opened_port := false } := by
  unfold client_main printer_main
  split_ifs with h1 h2 <;> first | exact ⟨rfl, rfl⟩ | tauto

theorem c9_validation_exits_before_port_with_code_zero_witness :
    ((-1 : Rat) < 0 ∨ (10 : Rat) < 0 ∨ (-1 : Rat) > 10)
    ∧ (client_main (-1) 10 = { exit_code := 0, opened_port := false }
      ∧ printer_main (-1) 10 = { exit_code := 0, opened_port := false }) :=
  ⟨Or.inl (by norm_num), c9_validation_exits_before_port_with_code_zero (-1) 10 (Or.inl (by norm_num))⟩

/-- C9 counterexample: running the peer CLI with job-interval-min -1
(an argument-validation failure) ends the process with exit code 0,
not a non-zero code, and likewise for the printer CLI with
delay-min -1; the claim that the exit code is non-zero is false. -/
theorem c9_validation_failure_exit_code_is_zero :
    (client_main (-1) 10).exit_code = 0
    ∧ (client_main (-1) 10).opened_port = false
    ∧ (printer_main (-1) 10).exit_code = 0
    ∧ (printer_main (-1) 10).opened_port = false := by decide

/-- C5 counterexample: two successive get_time operations return the
same timestamp, so the sequence of timestamps returned by successive
operations drawn from the full public interface is not strictly
increasing. -/
theorem c5_successive_get_time_not_increasing :
    runClockOps 0 [ClockOp.get_time, ClockOp.get_time] = [0, 0]
    ∧ ¬ List.Chain' (fun a b : Int => a < b)
        (runClockOps 0 [ClockOp.get_time, ClockOp.get_time]) := by
  constructor
  · rfl
  · intro hch
    rw [show runClockOps 0 [ClockOp.get_time, ClockOp.get_time] = [0, 0] from rfl] at hch
    exact absurd (List.chain'_cons.1 hch).1 (by norm_num)

/-- For a sequence of advancing operations the returned timestamps
form a strictly increasing chain and all exceed the starting state. -/
theorem runClockOps_advancing_chain (ops : List ClockOp) :
    ∀ s : Int, (∀ op ∈ ops, op.advancing = true) →
      List.Chain' (fun a b : Int => a < b) (runClockOps s ops)
      ∧ ∀ r ∈ runClockOps s ops, s < r := by
  induction ops with
  | nil =>
    intro s _
    simp [runClockOps]
  | cons op rest ih =>
    intro s h
    have hop : op.advancing = true := h op (List.mem_cons_self _ _)
    have hrest : ∀ o ∈ rest, o.advancing = true :=
      fun o ho => h o (List.mem_cons_of_mem _ ho)
    have hret : (runClockOp s op).2 = (runClockOp s op).1 := by
      cases op <;> simp_all [runClockOp, ClockOp.advancing, LamportClock.tick,
        LamportClock.send_event, LamportClock.receive_event,
        LamportClock.get_time, LamportClock.update]
    have hgt : s < (runClockOp s op).1 := by
      cases op <;> simp_all [runClockOp, ClockOp.advancing, LamportClock.tick,
        LamportClock.send_event, LamportClock.receive_event,
        LamportClock.get_time, LamportClock.update]
      exact lt_of_le_of_lt (le_max_left _ _) (lt_add_one _)
    obtain ⟨chainR, allR⟩ := ih (runClockOp s op).1 hrest
    refine ⟨?_, ?_⟩
    · rw [runClockOps]
      apply List.chain'_cons'.2
      refine ⟨?_, chainR⟩
      intro b hb
      rw [hret]
      exact allR b (List.mem_of_mem_head? hb)
    · intro r hr
      rw [runClockOps] at hr
      rcases List.mem_cons.1 hr with h1 | h1
      · rw [h1, hret]; exact hgt
      · exact lt_trans hgt (allR r h1)

/-- C5 (amended): restricted to the advancing operations of the public
interface (tick, send_event, receive_event), the sequence of returned
timestamps of any run is strictly increasing; get_time observes
without advancing, and update overwrites the clock arbitrarily, so
sequences containing them need not increase. -/
theorem c5_advancing_operations_strictly_increase (s : Int) (ops : List ClockOp)
    (h : ∀ op ∈ ops, op.advancing = true) :
    List.Chain' (fun a b : Int => a < b) (runClockOps s ops) :=
  (runClockOps_advancing_chain ops s h).1

theorem c5_advancing_operations_strictly_increase_witness :
    (∀ op ∈ [ClockOp.tick, ClockOp.receive_event 5, ClockOp.send_event],
      op.advancing = true)
    ∧ List.Chain' (fun a b : Int => a < b)
        (runClockOps 0 [ClockOp.tick, ClockOp.receive_event 5, ClockOp.send_event]) :=
  ⟨by decide,
    c5_advancing_operations_strictly_increase 0
      [ClockOp.tick, ClockOp.receive_event 5, ClockOp.send_event] (by decide)⟩

/-- C6 counterexample: a peer in the critical section defers a request
from peer 2 and then handles a second, later request from the same
peer 2; after handling, the deferred-reply table still holds the
earlier request, not the later one, so the later request does not
supersede the earlier. -/
theorem c6_later_request_does_not_supersede :
    (let H := { ClientNode.init 1 50062 "localhost:50051" ["localhost:50053"] 5 10 with
        has_access := true }
     let r1 : AccessRequest := { client_id := 2, lamport_timestamp := 5, request_number := 1 }
     let r2 : AccessRequest := { client_id := 2, lamport_timestamp := 9, request_number := 2 }
     let n1 := (MutualExclusionServiceServicer.RequestAccess H r1).1
     let n2 := (MutualExclusionServiceServicer.RequestAccess n1 r2).1
     n2.deferred_replies.lookup 2 = some r1 ∧ r1 ≠ r2) := by decide

/-- C6 (amended): the deferred-reply table is keyed by peer id, but a
later AccessRequest from a peer that already has a deferred entry does
not supersede it: handling any further request from that peer leaves
the existing entry in place (the source inserts only when no entry for
that client id exists). -/
theorem c6_earlier_deferred_entry_retained (node : ClientNode)
    (r q : AccessRequest)
    (h : node.deferred_replies.lookup r.client_id = some q) :
    ((MutualExclusionServiceServicer.RequestAccess node r).1.deferred_replies.lookup
      r.client_id) = some q := by
  simp [MutualExclusionServiceServicer.RequestAccess, h]
  split <;> simpa using h

theorem c6_earlier_deferred_entry_retained_witness :
    (let H := { ClientNode.init 1 50062 "localhost:50051" ["localhost:50053"] 5 10 with
        has_access := true,
        deferred_replies :=
          [(2, { client_id := 2, lamport_timestamp := 5, request_number := 1 })] }
     let r2 : AccessRequest := { client_id := 2, lamport_timestamp := 9, request_number := 2 }
     H.deferred_replies.lookup r2.client_id
        = some { client_id := 2, lamport_timestamp := 5, request_number := 1 }
     ∧ ((MutualExclusionServiceServicer.RequestAccess H r2).1.deferred_replies.lookup
          r2.client_id)
        = some { client_id := 2, lamport_timestamp := 5, request_number := 1 }) :=
  ⟨by decide, c6_earlier_deferred_entry_retained _ _ _ (by decide)⟩

/-- C2 counterexample: a peer in the critical section, holding its own
single pending record and already holding a deferred entry for peer 3,
handles a further request r from peer 3.  The decision is defer and
the reply carries access_granted false, but the request r is NOT
recorded in the deferred-reply table: the entry for peer 3 is still
the earlier request, so the clause that on defer the request is
recorded in the table is false at this input. -/
theorem c2_deferred_request_not_recorded_when_entry_exists :
    (let q0 : AccessRequest := { client_id := 3, lamport_timestamp := 2, request_number := 1 }
     let H := { ClientNode.init 1 50052 "localhost:50051" ["localhost:50053"] 5 10 with
        has_access := true,
        request_number := 1,
        clock := 3,
        request_queue := [{ client_id := 1, lamport_timestamp := 1, request_number := 1 }],
        deferred_replies := [(3, q0)] }
     let pend : PendingRequest := { client_id := 1, lamport_timestamp := 1, request_number := 1 }
     let r : AccessRequest := { client_id := 3, lamport_timestamp := 7, request_number := 2 }
     H.request_queue = [pend]
     ∧ pend.client_id = H.client_id
     ∧ spec_decision H.peerState H.client_id pend.lamport_timestamp r = true
     ∧ (MutualExclusionServiceServicer.RequestAccess H r).2.access_granted = false
     ∧ (MutualExclusionServiceServicer.RequestAccess H r).1.deferred_replies.lookup
         r.client_id = some q0
     ∧ q0 ≠ r) := by decide

/-- C2 (amended): for an incoming request handled by a peer holding
exactly its own single pending record, the grant-or-defer decision of
the code equals the rule table of the specification (defer in HELD,
grant in IDLE, and in WAITING grant exactly when the pair of request
timestamp and peer id precedes the pair of own timestamp and own id in
the strict lexicographic order); the synchronous reply carries
access_granted false exactly when the decision is defer, and in that
case the request is recorded in the deferred-reply table keyed by
peer_id only when no entry for that peer id exists yet — when one
exists, the table keeps the earlier request and the new request is
not recorded. -/
theorem c2_decision_and_deferral_recording (node : ClientNode) (r : AccessRequest)
    (pend : PendingRequest) (hq : node.request_queue = [pend])
    (_hid : pend.client_id = node.client_id) :
    ((node.evaluate_access_request r).1
      = spec_decision node.peerState node.client_id pend.lamport_timestamp r)
    ∧ ((MutualExclusionServiceServicer.RequestAccess node r).2.access_granted
      = !(spec_decision node.peerState node.client_id pend.lamport_timestamp r))
    ∧ (spec_decision node.peerState node.client_id pend.lamport_timestamp r = true →
      ((node.deferred_replies.lookup r.client_id = none →
        (MutualExclusionServiceServicer.RequestAccess node r).1.deferred_replies.lookup
          r.client_id = some r)
      ∧ ∀ q, node.deferred_replies.lookup r.client_id = some q →
        (MutualExclusionServiceServicer.RequestAccess node r).1.deferred_replies.lookup
          r.client_id = some q)) := by
  have hsort : sortPending node.request_queue = [pend] := by rw [hq]; rfl
  have hdec : (node.evaluate_access_request r).1
      = spec_decision node.peerState node.client_id pend.lamport_timestamp r := by
    cases ha : node.has_access with
    | true =>
      simp [ClientNode.evaluate_access_request, spec_decision,
        ClientNode.peerState, ha]
    | false =>
      cases hw : node.waiting_for_access with
      | false =>
        simp [ClientNode.evaluate_access_request, spec_decision,
          ClientNode.peerState, ha, hw, hsort]
      | true =>
        simp only [ClientNode.evaluate_access_request, spec_decision,
          ClientNode.peerState, ha, hw, hsort, Bool.false_eq_true,
          if_false, if_true]
        rcases lt_trichotomy r.lamport_timestamp pend.lamport_timestamp with hlt | heq | hgt
        · rw [if_pos hlt]
          simp [hlt]
        · have h1 : ¬ r.lamport_timestamp < pend.lamport_timestamp := by omega
          have h2 : ¬ r.lamport_timestamp > pend.lamport_timestamp := by omega
          rw [if_neg h1, if_neg h2]
          by_cases hc : r.client_id < node.client_id
          · rw [if_pos hc]
            simp [heq, hc]
          · rw [if_neg hc]
            simp [heq, hc]
        · have h1 : ¬ r.lamport_timestamp < pend.lamport_timestamp := by omega
          have h2 : r.lamport_timestamp ≠ pend.lamport_timestamp := by omega
          rw [if_neg h1, if_pos hgt]
          simp [h1, h2]
  have haccess : (MutualExclusionServiceServicer.RequestAccess node r).2.access_granted
      = !((node.evaluate_access_request r).1) := by
    rcases hev : node.evaluate_access_request r with ⟨d, m, q2⟩
    simp only [MutualExclusionServiceServicer.RequestAccess,
      evaluate_access_request_clock_irrelevant, hev]
    cases d <;> simp [MessageBuilder.build_access_response]
  have hrecord : (node.evaluate_access_request r).1 = true →
      ((node.deferred_replies.lookup r.client_id = none →
        (MutualExclusionServiceServicer.RequestAccess node r).1.deferred_replies.lookup
          r.client_id = some r)
      ∧ ∀ q, node.deferred_replies.lookup r.client_id = some q →
        (MutualExclusionServiceServicer.RequestAccess node r).1.deferred_replies.lookup
          r.client_id = some q) := by
    intro hd
    constructor
    · intro hl
      simp only [MutualExclusionServiceServicer.RequestAccess,
        evaluate_access_request_clock_irrelevant, hd, if_true]
      simp [hl, lookup_append_of_none _ _ _ hl]
    · intro q hl
      simp only [MutualExclusionServiceServicer.RequestAccess,
        evaluate_access_request_clock_irrelevant, hd, if_true]
      simp [hl]
  exact ⟨hdec, by rw [haccess, hdec],
    fun hs => hrecord (by rw [hdec]; exact hs)⟩

theorem c2_decision_and_deferral_recording_witness :
    (let W := { ClientNode.init 1 50052 "localhost:50051" ["localhost:50053"] 5 10 with
        waiting_for_access := true,
        request_number := 1,
        clock := 4,
        request_queue := [{ client_id := 1, lamport_timestamp := 4, request_number := 1 }] }
     let r : AccessRequest := { client_id := 2, lamport_timestamp := 9, request_number := 1 }
     let pend : PendingRequest := { client_id := 1, lamport_timestamp := 4, request_number := 1 }
     W.request_queue = [pend]
     ∧ pend.client_id = W.client_id
     ∧ (((W.evaluate_access_request r).1
          = spec_decision W.peerState W.client_id pend.lamport_timestamp r)
        ∧ ((MutualExclusionServiceServicer.RequestAccess W r).2.access_granted
          = !(spec_decision W.peerState W.client_id pend.lamport_timestamp r))
        ∧ (spec_decision W.peerState W.client_id pend.lamport_timestamp r = true →
          ((W.deferred_replies.lookup r.client_id = none →
            (MutualExclusionServiceServicer.RequestAccess W r).1.deferred_replies.lookup
              r.client_id = some r)
          ∧ ∀ q, W.deferred_replies.lookup r.client_id = some q →
            (MutualExclusionServiceServicer.RequestAccess W r).1.deferred_replies.lookup
              r.client_id = some q)))) :=
  ⟨rfl, rfl, c2_decision_and_deferral_recording _ _ _ rfl rfl⟩

/-- C1: mutual-exclusion safety fails on the code: in a sequentially
consistent trace of completed protocol steps of two peers A (id 1) and
B (id 2), A acquires the critical section properly with a grant from
B; then B initiates, its AccessRequest RPC to A fails, and the error
branch records the unreachable peer as having replied, so B also
enters the critical section: at the end of the trace both nodes have
has_access true at the same instant, with neither having released. -/
theorem c1_two_peers_in_held_simultaneously :
    (let A0 := ClientNode.init 1 50062 "localhost:50051" ["localhost:50063"] 100 100
     let B0 := ClientNode.init 2 50063 "localhost:50051" ["localhost:50062"] 100 100
     let iA := A0.request_print_access_init
     let reqA := MessageBuilder.build_access_request A0.client_id
        iA.2.lamport_timestamp iA.2.request_number
     let rB := MutualExclusionServiceServicer.RequestAccess B0 reqA
     let A2 := iA.1.handle_peer_response "localhost:50063" rB.2
     let A3 := A2.enter_critical_section.getD A2
     let iB := rB.1.request_print_access_init
     let B3 := iB.1.handle_peer_rpc_error "localhost:50062"
     let B4 := B3.enter_critical_section.getD B3
     rB.2.access_granted = true
     ∧ A3.has_access = true
     ∧ A3.peerState = PeerState.HELD
     ∧ B4.has_access = true
     ∧ B4.peerState = PeerState.HELD) := by decide

/-- C8: for every print job, SendToPrinter emits exactly the single
stdout line formatted with the timestamp and identifier of the client,
sleeps for the duration drawn by random.uniform which lies within the
configured delay bounds, merges and then advances its clock (ending at
max of own clock and job timestamp, plus two), and always answers
success true with the confirmation message and the post-advance
timestamp. -/
theorem c8_printer_always_succeeds (s : PrintingServiceServicer)
    (request : PrintRequest) (delay : Rat)
    (hmin : s.print_delay_min ≤ delay) (hmax : delay ≤ s.print_delay_max) :
    (s.SendToPrinter request delay).2.1 =
      ["[TS: " ++ toString request.lamport_timestamp ++ "] CLIENTE " ++
        toString request.client_id ++ ": " ++ request.message_content]
    ∧ s.print_delay_min ≤ (s.SendToPrinter request delay).2.2.1
    ∧ (s.SendToPrinter request delay).2.2.1 ≤ s.print_delay_max
    ∧ (s.SendToPrinter request delay).1.clock
        = max s.clock request.lamport_timestamp + 2
    ∧ (s.SendToPrinter request delay).2.2.2.success = true
    ∧ (s.SendToPrinter request delay).2.2.2.confirmation_message
        = "Documento do cliente " ++ toString request.client_id ++
          " impresso com sucesso"
    ∧ (s.SendToPrinter request delay).2.2.2.lamport_timestamp
        = (s.SendToPrinter request delay).1.clock := by
  refine ⟨rfl, hmin, hmax, ?_, rfl, rfl, rfl⟩
  show max s.clock request.lamport_timestamp + 1 + 1
      = max s.clock request.lamport_timestamp + 2
  rw [add_assoc]
  norm_num

theorem c8_printer_always_succeeds_witness :
    ((⟨2, 3, 0⟩ : PrintingServiceServicer).print_delay_min ≤ (5/2 : Rat))
    ∧ ((5/2 : Rat) ≤ (⟨2, 3, 0⟩ : PrintingServiceServicer).print_delay_max)
    ∧ (PrintingServiceServicer.SendToPrinter ⟨2, 3, 0⟩
        ⟨1, "relatorio", 5, 1⟩ (5/2)).2.2.2.success = true
    ∧ (PrintingServiceServicer.SendToPrinter ⟨2, 3, 0⟩
        ⟨1, "relatorio", 5, 1⟩ (5/2)).1.clock = max (0 : Int) 5 + 2 :=
  ⟨by norm_num, by norm_num,
    (c8_printer_always_succeeds ⟨2, 3, 0⟩ ⟨1, "relatorio", 5, 1⟩ (5/2)
      (by norm_num) (by norm_num)).2.2.2.2.1,
    (c8_printer_always_succeeds ⟨2, 3, 0⟩ ⟨1, "relatorio", 5, 1⟩ (5/2)
      (by norm_num) (by norm_num)).2.2.2.1⟩
